import Mathlib

/-!
Shallow embedding of the receipt-validation core of the parfum bot
(yereke99/parfum): config/config.go, internal/service (ParsePrice,
Validator, ValidatorWithDetails), internal/repository/client-repository.go
(IsUniqueQr, InsertLoto), and the two PaidHandler variants plus
DeterminePrize and getOrCreateUserState from internal/handler/handler.go.
Machine ints are modelled as unbounded Int/Nat with explicit clamping where
Go strconv.Atoi range behaviour matters; the SQLite loto table is a list of
rows; Redis state is an Option; the random ticket draws are an explicit
draw function passed in.
-/

namespace Parfum

/-- config.Config, the fields the validation core reads (config/config.go). -/
structure Config where
  cost : Int
  bin : Int
  bin2 : Int
  bin3 : Int
  bin4 : Int
  bin5 : Int
  deriving Repr, DecidableEq

/-- The deployed configuration values from config.NewConfig (config/config.go):
Cost 18900 and the five issuer identifiers Bin..Bin5. -/
def concreteCfg : Config :=
  { cost := 18900
    bin := 870304301209
    bin2 := 60301551728
    bin3 := 11225600097
    bin4 := 10514551360
    bin5 := 980517451262 }

/-- domain.UserState (internal/domain/user-model.go), the fields the payment
flow reads and writes (BroadCastType and Contact are untouched here). -/
structure UserState where
  state : String
  count : Int
  isPaid : Bool
  deriving Repr, DecidableEq

/-- domain.PdfResult as constructed in PaidHandler and consumed by
service.Validator: Total, ActualPrice, Qr, Bin. -/
structure PdfResult where
  total : Int
  actualPrice : Int
  qr : String
  bin : Int
  deriving Repr, DecidableEq

/-- A row of the SQLite loto table, restricted to the columns the claims
touch: id_user, id_loto, qr, checks; UNIQUE(id_user, id_loto). -/
structure LotoRow where
  idUser : Int
  idLoto : Int
  qr : String
  checks : Bool
  deriving Repr, DecidableEq

/-- Handler state-name constant StateStart = "state_start" (handler.go). -/
def StateStart : String := "state_start"

/-- Handler state-name constant StatePay = "state_pay" (handler.go). -/
def StatePay : String := "state_pay"

/-- Handler state-name constant StateContact = "state_contact" (handler.go). -/
def StateContact : String := "state_contact"

/-- The digit characters of a string in order: what remains after the
regexp \D+ removal in service.ParsePrice. -/
def digitChars (s : String) : List Char := s.data.filter Char.isDigit

/-- Decimal value of a digit-character list, most significant first, as
strconv.Atoi accumulates it. -/
def digitsVal (l : List Char) : Nat :=
  l.foldl (fun a c => 10 * a + (c.toNat - 48)) 0

/-- Go int64 maximum, the bound at which strconv.Atoi reports ErrRange. -/
def maxInt64 : Nat := 9223372036854775807

/-- service.ParsePrice (internal/service): strip every non-digit character
and run strconv.Atoi on the rest. none models the error return: no digits
found, or the digit string exceeds the int64 range (Atoi ErrRange). -/
def ParsePrice (s : String) : Option Int :=
  let ds := digitChars s
  if ds.isEmpty then none
  else if digitsVal ds ≤ maxInt64 then some (Int.ofNat (digitsVal ds))
  else none

/-- The value component of service.ParsePrice as Go returns it even
alongside an error, used by the handler at the call sites that discard the
error (bin, _ := service.ParsePrice(...)): 0 when no digits are found,
the Atoi-clamped int64 maximum on range overflow. -/
def parsePriceVal (s : String) : Int :=
  let ds := digitChars s
  if ds.isEmpty then 0
  else Int.ofNat (min (digitsVal ds) maxInt64)

/-- Spec-side reading of an amount string: the integer denoted by the
concatenation of its digit characters in order (Nat.ofDigits takes digits
least significant first, hence the reverse). -/
def specDigitNumber (s : String) : Nat :=
  Nat.ofDigits 10 (((digitChars s).map (fun c => c.toNat - 48)).reverse)

/-- Validation failure classification shared by both validators:
service.ErrWrongPrice / "wrong_price" and service.ErrWrongBin / "wrong_bin". -/
inductive VErr where
  | wrongPrice
  | wrongBin
  deriving Repr, DecidableEq

/-- service.Validator (internal/service): reject with ErrWrongPrice when
ActualPrice differs from Total * cfg.Cost, then with ErrWrongBin when Bin
matches none of cfg.Bin .. cfg.Bin5; accept otherwise. -/
def Validator (cfg : Config) (pdfData : PdfResult) : Option VErr :=
  let mustPrice := pdfData.total * cfg.cost
  if pdfData.actualPrice ≠ mustPrice then some VErr.wrongPrice
  else if pdfData.bin ≠ cfg.bin ∧ pdfData.bin ≠ cfg.bin2 ∧ pdfData.bin ≠ cfg.bin3 ∧
      pdfData.bin ≠ cfg.bin4 ∧ pdfData.bin ≠ cfg.bin5 then some VErr.wrongBin
  else none

/-- service.ValidatorWithDetails (internal/service): same price check, but
the issuer check compares Bin against cfg.Bin only. -/
def ValidatorWithDetails (cfg : Config) (pdfData : PdfResult) : Option VErr :=
  let mustPrice := pdfData.total * cfg.cost
  if pdfData.actualPrice ≠ mustPrice then some VErr.wrongPrice
  else if pdfData.bin ≠ cfg.bin then some VErr.wrongBin
  else none

/-- ClientRepository.IsUniqueQr (internal/repository/client-repository.go):
SELECT COUNT(1) FROM loto WHERE qr = ?, returning cnt > 0 — true exactly
when the QR has been seen before. -/
def IsUniqueQr (loto : List LotoRow) (qr : String) : Bool :=
  0 < (loto.filter (fun r => r.qr = qr)).length

/-- ClientRepository.InsertLoto: INSERT OR REPLACE INTO loto against the
UNIQUE(id_user, id_loto) constraint — a row with the same key is replaced,
otherwise the row is appended. -/
def InsertLoto (loto : List LotoRow) (e : LotoRow) : List LotoRow :=
  (loto.filter (fun r => !(r.idUser == e.idUser && r.idLoto == e.idLoto))) ++ [e]

/-- Handler.getOrCreateUserState (handler.go): a missing key (and equally a
Redis read error) is replaced by the synthesized record with State "",
Count 0, IsPaid false, written back best-effort. -/
def getOrCreateUserState (stored : Option UserState) : UserState :=
  match stored with
  | none => { state := "", count := 0, isPaid := false }
  | some s => s

/-- Prize-name constant Prize10ML (handler.go). -/
def Prize10ML : String := "parfum_10ml"

/-- Prize-name constant Prize30ML (handler.go). -/
def Prize30ML : String := "parfum_30ml"

/-- Prize-name constant PrizeDiamond (handler.go). -/
def PrizeDiamond : String := "diamond_ring"

/-- Prize-name constant PrizeMoney (handler.go). -/
def PrizeMoney : String := "money"

/-- The fixed diamond collision positions in Handler.DeterminePrize. -/
def diamondPositions : List Int := [50, 150, 250, 350, 450, 550, 650, 750, 850, 950]

/-- Handler.DeterminePrize (handler.go): the Go function body, with each
early return translated into a branch; the nested guard of the second rule
(if n%100==0 then if n%200!=0 then return diamond, otherwise fall through)
becomes the conjunction n%100=0 ∧ n%200≠0, and likewise for the 30ml rule.
Go's truncated % agrees with Lean's % on the =0 tests made here. -/
def DeterminePrize (orderSequence : Int) : String :=
  if orderSequence % 200 = 0 then PrizeMoney
  else if orderSequence % 100 = 0 ∧ orderSequence % 200 ≠ 0 then PrizeDiamond
  else if orderSequence ∈ diamondPositions then PrizeDiamond
  else if orderSequence % 30 = 0 ∧ (orderSequence % 200 ≠ 0 ∧ orderSequence % 100 ≠ 0 ∧
      orderSequence ∉ diamondPositions) then Prize30ML
  else Prize10ML

/-- The five-rule reference definition of the prize tiers as the claim
states it: money on multiples of 200; else diamond on multiples of 100;
else diamond on the fixed collision list; else 30ml on multiples of 30;
else 10ml. -/
def refPrize (n : Int) : String :=
  if n % 200 = 0 then PrizeMoney
  else if n % 100 = 0 then PrizeDiamond
  else if n ∈ diamondPositions then PrizeDiamond
  else if n % 30 = 0 then Prize30ML
  else Prize10ML

/-- The "success" layout marker string compared against result[0] in both
PaidHandler variants. -/
def successMarker : String := "Платеж успешно совершен"

/-- The key PaidHandler passes to ClientRepository.IsUniqueQr: result[3] of
the raw extracted field list, read before the layout shift is applied. -/
def guardQueryKey (result : List String) : String := result.getD 3 ""

/-- The field extraction of both PaidHandler variants once result[4] has
been read without panicking: pdfPrice = result[2], qrPdf = result[3],
bin = ParsePrice(result[4]) with the error discarded; when result[0] equals
the success marker, the indices shift to result[1], result[2], result[3]. -/
def extractFields (result : List String) : String × String × Int :=
  let pdfPrice := result.getD 2 ""
  let qrPdf := result.getD 3 ""
  let bin := parsePriceVal (result.getD 4 "")
  if result.getD 0 "" = successMarker then
    (result.getD 1 "", result.getD 2 "", parsePriceVal (result.getD 3 ""))
  else
    (pdfPrice, qrPdf, bin)

/-- The willBePrice slice of the first PaidHandler variant: discrete
near-18900 amounts that the loop replaces with 18900. -/
def willBePrice : List Int :=
  [18000, 18100, 18200, 18300, 18400, 18500, 18600, 18700, 18800, 18990,
   18900, 19000, 19500, 19800, 19890, 19900, 19990, 20000, 21000, 29000]

/-- The normalization loop of the first PaidHandler variant: an amount
equal to some member of willBePrice becomes 18900, anything else is kept. -/
def snapWillBePrice (p : Int) : Int := if p ∈ willBePrice then 18900 else p

/-- The normalization loop of the second PaidHandler variant: for i in
2400..2499, an amount equal to i becomes 2499. -/
def snapBand2400 (p : Int) : Int := if 2400 ≤ p ∧ p < 2500 then 2499 else p

/-- Observable result classes of one PaidHandler run, one per return point
of the Go function after the PDF has been downloaded and extracted. -/
inductive Outcome where
  /-- len(result) < 4: the retry message for an unreadable receipt. -/
  | parseFail
  /-- the already-used-receipt message branch of the uniqueness guard. -/
  | alreadyUsed
  /-- index out of range: the unconditional result[4] read panics. -/
  | panicIndex
  /-- service.ParsePrice failed on the amount field. -/
  | badAmount
  /-- nil-pointer dereference of the missing user state at state.Count. -/
  | panicNilState
  /-- integer division by zero in predictedCount when cfg.Cost = 0. -/
  | panicDivZero
  /-- totalPrice != actualPrice: wrong-amount message plus the quantity
  keyboard, carrying predictedCount = actualPrice / cfg.Cost. -/
  | wrongPriceKb (predicted : Int)
  /-- service.Validator returned ErrWrongBin. -/
  | wrongBin
  /-- service.Validator returned ErrWrongPrice. -/
  | wrongPriceMsg
  /-- full acceptance: state saved, total increased, tickets inserted. -/
  | accepted
  deriving Repr, DecidableEq

/-- What one PaidHandler run did: its outcome, the state written to Redis
(none when no SaveUserState call happened), the loto table afterwards, the
batch of entries passed to InsertLoto, and the amount added to the running
total by IncreaseTotalSum. -/
structure PipeResult where
  outcome : Outcome
  savedState : Option UserState
  loto : List LotoRow
  inserts : List LotoRow
  sumDelta : Int
  deriving Repr, DecidableEq

/-- A PaidHandler return that left every store untouched. -/
def noChange (loto : List LotoRow) (o : Outcome) : PipeResult :=
  { outcome := o, savedState := none, loto := loto, inserts := [], sumDelta := 0 }

/-- The ticket-insertion loop of PaidHandler: totalLoto iterations, each
drawing the next random id and calling InsertLoto with the user, the drawn
id, the receipt QR and Checks false. Returns the table after the loop and
the batch of inserted entries in order. -/
def runInserts (loto : List LotoRow) (userId : Int) (qrPdf : String)
    (totalLoto : Nat) (draws : Nat → Int) : List LotoRow × List LotoRow :=
  (List.range totalLoto).foldl
    (fun acc i =>
      let e : LotoRow := { idUser := userId, idLoto := draws i, qr := qrPdf, checks := false }
      (InsertLoto acc.1 e, acc.2 ++ [e]))
    (loto, [])

/-- First PaidHandler variant (handler.go, the handler whose uniqueness
guard rejects on !ok and whose snap data is willBePrice), modelled from the
point where the extracted field list result is available. Inputs: the
config, the current loto table, the stored user state (none = missing key),
the user id, the field list, and the stream of rand.Intn(90000000)+10000000
draws. Faithful to the Go control flow: the guard is consulted with
result[3] before the layout shift; result[4] is read unconditionally after
only a len >= 4 check; a nil state is dereferenced at state.Count. -/
def PaidHandlerV1 (cfg : Config) (loto : List LotoRow) (stateOpt : Option UserState)
    (userId : Int) (result : List String) (draws : Nat → Int) : PipeResult :=
  if result.length < 4 then noChange loto Outcome.parseFail
  else if !(IsUniqueQr loto (guardQueryKey result)) then noChange loto Outcome.alreadyUsed
  else if result.length < 5 then noChange loto Outcome.panicIndex
  else
    let ext := extractFields result
    match ParsePrice ext.1 with
    | none => noChange loto Outcome.badAmount
    | some rawPrice =>
      let actualPrice := snapWillBePrice rawPrice
      match stateOpt with
      | none => noChange loto Outcome.panicNilState
      | some state =>
        if cfg.cost = 0 then noChange loto Outcome.panicDivZero
        else
          let totalPrice := state.count * cfg.cost
          let predictedCount := Int.tdiv actualPrice cfg.cost
          if totalPrice ≠ actualPrice then noChange loto (Outcome.wrongPriceKb predictedCount)
          else
            let totalLoto := (state.count * 3).toNat
            let pdfResult : PdfResult :=
              { total := state.count, actualPrice := actualPrice, qr := ext.2.1, bin := ext.2.2 }
            match Validator cfg pdfResult with
            | some VErr.wrongBin => noChange loto Outcome.wrongBin
            | some VErr.wrongPrice => noChange loto Outcome.wrongPriceMsg
            | none =>
              let newState : UserState :=
                { state with isPaid := true, state := StateContact }
              let ins := runInserts loto userId ext.2.1 totalLoto draws
              { outcome := Outcome.accepted, savedState := some newState,
                loto := ins.1, inserts := ins.2, sumDelta := actualPrice }

/-- Second PaidHandler variant (handler.go, the later handler): identical
to the first except that the uniqueness guard rejects when ok is true
(found means reject) and the snap loop maps amounts in 2400..2499 to 2499. -/
def PaidHandlerV2 (cfg : Config) (loto : List LotoRow) (stateOpt : Option UserState)
    (userId : Int) (result : List String) (draws : Nat → Int) : PipeResult :=
  if result.length < 4 then noChange loto Outcome.parseFail
  else if IsUniqueQr loto (guardQueryKey result) then noChange loto Outcome.alreadyUsed
  else if result.length < 5 then noChange loto Outcome.panicIndex
  else
    let ext := extractFields result
    match ParsePrice ext.1 with
    | none => noChange loto Outcome.badAmount
    | some rawPrice =>
      let actualPrice := snapBand2400 rawPrice
      match stateOpt with
      | none => noChange loto Outcome.panicNilState
      | some state =>
        if cfg.cost = 0 then noChange loto Outcome.panicDivZero
        else
          let totalPrice := state.count * cfg.cost
          let predictedCount := Int.tdiv actualPrice cfg.cost
          if totalPrice ≠ actualPrice then noChange loto (Outcome.wrongPriceKb predictedCount)
          else
            let totalLoto := (state.count * 3).toNat
            let pdfResult : PdfResult :=
              { total := state.count, actualPrice := actualPrice, qr := ext.2.1, bin := ext.2.2 }
            match Validator cfg pdfResult with
            | some VErr.wrongBin => noChange loto Outcome.wrongBin
            | some VErr.wrongPrice => noChange loto Outcome.wrongPriceMsg
            | none =>
              let newState : UserState :=
                { state with isPaid := true, state := StateContact }
              let ins := runInserts loto userId ext.2.1 totalLoto draws
              { outcome := Outcome.accepted, savedState := some newState,
                loto := ins.1, inserts := ins.2, sumDelta := actualPrice }

/-- The failure classes C8 quantifies over: too few fields, already-used
QR, unparseable amount, wrong price (both report points), wrong bin. -/
def isFailureOutcome : Outcome → Bool
  | Outcome.parseFail => true
  | Outcome.alreadyUsed => true
  | Outcome.badAmount => true
  | Outcome.wrongPriceKb _ => true
  | Outcome.wrongBin => true
  | Outcome.wrongPriceMsg => true
  | _ => false

/-- C3: Handler.DeterminePrize is a pure total function of the order
sequence number that coincides with the five-rule reference definition for
every integer, and takes the claimed values at 200, 100, 50, 30 and 17. -/
theorem C3_determinePrize_matches_reference :
    (∀ n : Int, DeterminePrize n = refPrize n) ∧
    DeterminePrize 200 = PrizeMoney ∧ DeterminePrize 100 = PrizeDiamond ∧
    DeterminePrize 50 = PrizeDiamond ∧ DeterminePrize 30 = Prize30ML ∧
    DeterminePrize 17 = Prize10ML := by
  refine ⟨fun n => ?_, by decide, by decide, by decide, by decide, by decide⟩
  by_cases hA : n % 200 = 0
  · simp [DeterminePrize, refPrize, hA]
  · by_cases hB : n % 100 = 0
    · simp [DeterminePrize, refPrize, hA, hB]
    · by_cases hC : n ∈ diamondPositions
      · simp [DeterminePrize, refPrize, hA, hB, hC]
      · by_cases hD : n % 30 = 0
        · simp [DeterminePrize, refPrize, hA, hB, hC, hD]
        · simp [DeterminePrize, refPrize, hA, hB, hC, hD]

/-- Accumulating decimal digits most-significant-first is the base-10 value
of the reversed digit list. -/
lemma foldl_digits_eq_ofDigits (l : List Nat) (a : Nat) :
    l.foldl (fun x d => 10 * x + d) a =
      a * 10 ^ l.length + Nat.ofDigits 10 l.reverse := by
  induction l generalizing a with
  | nil => simp [Nat.ofDigits]
  | cons x xs ih =>
    simp only [List.foldl_cons, List.reverse_cons, List.length_cons]
    rw [ih, Nat.ofDigits_append]
    simp [Nat.ofDigits]
    ring

/-- digitsVal coincides with the spec-side concatenation-of-digits value. -/
lemma digitsVal_eq_specDigitNumber (s : String) :
    digitsVal (digitChars s) = specDigitNumber s := by
  unfold digitsVal specDigitNumber
  rw [← List.foldl_map (fun c : Char => c.toNat - 48) (fun x d => 10 * x + d)]
  rw [foldl_digits_eq_ofDigits]
  simp

/-- C6 counterexample: the 20-digit string of nines contains digits, yet
ParsePrice fails (strconv.Atoi range error) instead of returning the
concatenation 10^20 - 1, refuting the claim quantified over all strings. -/
theorem C6_counterexample_overflow :
    ParsePrice "99999999999999999999" = none ∧
    ("99999999999999999999".data.filter Char.isDigit) ≠ [] ∧
    specDigitNumber "99999999999999999999" = 99999999999999999999 := by
  refine ⟨by decide, by decide, ?_⟩
  rw [← digitsVal_eq_specDigitNumber]
  decide

/-- C6 amended: ParsePrice returns the integer denoted by the concatenation
of the digit characters of its input, in order, provided that value fits in
a signed 64-bit integer; a string with no digit characters, or whose digit
concatenation exceeds the int64 range, yields the error return instead. -/
theorem C6_parsePrice_amended (s : String) :
    (digitChars s = [] → ParsePrice s = none) ∧
    (digitChars s ≠ [] → specDigitNumber s ≤ maxInt64 →
      ParsePrice s = some (Int.ofNat (specDigitNumber s))) ∧
    (maxInt64 < specDigitNumber s → ParsePrice s = none) := by
  have hval := digitsVal_eq_specDigitNumber s
  unfold ParsePrice
  refine ⟨fun h => ?_, fun h1 h2 => ?_, fun h => ?_⟩
  · simp [h]
  · simp [h1, hval, h2, List.isEmpty_iff]
  · have h1 : digitChars s ≠ [] := by
      intro hnil
      rw [hnil] at hval
      simp [digitsVal] at hval
      rw [← hval] at h
      simp [maxInt64] at h
    simp [h1, hval, List.isEmpty_iff, Nat.not_le.mpr h]

/-- C6 witness: at "a1b2c3" the digits are non-empty, in range, and
ParsePrice returns the concatenation value 123. -/
theorem C6_parsePrice_amended_witness :
    ParsePrice "a1b2c3" = some (Int.ofNat (specDigitNumber "a1b2c3")) ∧
    specDigitNumber "a1b2c3" = 123 := by
  refine ⟨(C6_parsePrice_amended "a1b2c3").2.1 (by decide) ?_, ?_⟩ <;>
    (rw [← digitsVal_eq_specDigitNumber]; decide)

/-- C10 counterexample: under the deployed configuration, a receipt with
the correct price for one unit and issuer identifier Bin2 (60301551728) is
accepted by Validator but rejected as wrong_bin by ValidatorWithDetails, so
the two validators are not equivalent. -/
theorem C10_counterexample_bin2 :
    Validator concreteCfg
      { total := 1, actualPrice := 18900, qr := "q", bin := 60301551728 } = none ∧
    ValidatorWithDetails concreteCfg
      { total := 1, actualPrice := 18900, qr := "q", bin := 60301551728 } =
      some VErr.wrongBin := by
  exact ⟨by decide, by decide⟩

/-- C10 amended: the validators agree one-way and on price failures — every
receipt ValidatorWithDetails accepts is accepted by Validator, and the two
classify exactly the same inputs as wrong-price (the first check of both);
they differ only on issuers drawn from cfg.Bin2 .. cfg.Bin5. -/
theorem C10_validators_refinement (cfg : Config) (pdfData : PdfResult) :
    (ValidatorWithDetails cfg pdfData = none → Validator cfg pdfData = none) ∧
    (Validator cfg pdfData = some VErr.wrongPrice ↔
      ValidatorWithDetails cfg pdfData = some VErr.wrongPrice) := by
  unfold Validator ValidatorWithDetails
  split_ifs <;> simp_all
  split_ifs <;> simp_all

/-- C10 witness: applying the refinement at the deployed configuration and
a receipt that ValidatorWithDetails accepts. -/
theorem C10_validators_refinement_witness :
    Validator concreteCfg
      { total := 1, actualPrice := 18900, qr := "q", bin := 870304301209 } = none :=
  (C10_validators_refinement concreteCfg
    { total := 1, actualPrice := 18900, qr := "q", bin := 870304301209 }).1 (by decide)

/-- A loto table holding one previously accepted ticket for QR "QR-1". -/
def replayTable : List LotoRow :=
  [{ idUser := 9, idLoto := 77777777, qr := "QR-1", checks := false }]

/-- A stored user state in the payment stage with quantity 1. -/
def stateQty1 : Option UserState :=
  some { state := StatePay, count := 1, isPaid := false }

/-- A well-formed 5-field extracted receipt whose QR field (result[3]) is
"QR-1", amount 18900 and issuer cfg.Bin. -/
def fieldsQr1 : List String := ["x", "y", "18900", "QR-1", "870304301209"]

/-- C1: the first PaidHandler variant inverts the uniqueness guard: a
receipt whose QR "QR-1" already has an accepted loto row is fully accepted
again (tickets inserted, state saved), while the very same receipt against
a table that has never seen the QR is rejected with the already-used
message; the second variant rejects the replay as the spec requires. -/
theorem C1_guard_polarity_bug :
    (PaidHandlerV1 concreteCfg replayTable stateQty1 9 fieldsQr1
      (fun i => 10000005 + (i : Int))).outcome = Outcome.accepted ∧
    (PaidHandlerV1 concreteCfg [] stateQty1 9 fieldsQr1
      (fun i => 10000005 + (i : Int))).outcome = Outcome.alreadyUsed ∧
    (PaidHandlerV2 concreteCfg replayTable stateQty1 9 fieldsQr1
      (fun i => 10000005 + (i : Int))).outcome = Outcome.alreadyUsed := by
  exact ⟨by decide, by decide, by decide⟩

/-- The spec's end-to-end extracted field list, with the success marker the
code actually compares against: marker, amount, QR, issuer — 4 elements. -/
def endToEndFields : List String :=
  ["Платеж успешно совершен", "94,500 ₸", "QR-ABC-123", "870304301209"]

/-- A loto table that has already accepted the QR "QR-ABC-123". -/
def tableQrAbc : List LotoRow :=
  [{ idUser := 9, idLoto := 77777777, qr := "QR-ABC-123", checks := false }]

/-- C2 counterexample: on the spec's end-to-end input the layout shift
applies and the extracted QR is "QR-ABC-123" (element 2), but the
uniqueness guard is queried with the pre-shift element 3 — the issuer field
"870304301209" — so a table that has already accepted "QR-ABC-123" is not
even consulted for it: the second handler variant sails past the guard
instead of rejecting the replay. -/
theorem C2_counterexample_guard_key :
    guardQueryKey endToEndFields = "870304301209" ∧
    (extractFields endToEndFields).2.1 = "QR-ABC-123" ∧
    guardQueryKey endToEndFields ≠ (extractFields endToEndFields).2.1 ∧
    (PaidHandlerV2 concreteCfg tableQrAbc stateQty1 9 endToEndFields
      (fun i => 10000005 + (i : Int))).outcome ≠ Outcome.alreadyUsed := by
  exact ⟨by decide, by decide, by decide, by decide⟩

/-- C2 amended: in the shifted layout (element 0 equal to the success
marker) the amount is read from element 1, the receipt identifier from
element 2 and the issuer from element 3, but the Uniqueness Guard is
queried with element 3 of the raw list — the issuer field — because the
query is issued before the layout shift is applied. -/
theorem C2_layout_extraction (result : List String)
    (h : result.getD 0 "" = successMarker) :
    (extractFields result).1 = result.getD 1 "" ∧
    (extractFields result).2.1 = result.getD 2 "" ∧
    (extractFields result).2.2 = parsePriceVal (result.getD 3 "") ∧
    guardQueryKey result = result.getD 3 "" := by
  have h' : result[0]?.getD "" = successMarker := by simpa using h
  simp [extractFields, guardQueryKey, h']

/-- C2 witness: the amended layout facts evaluated on the end-to-end
input. -/
theorem C2_layout_extraction_witness :
    (extractFields endToEndFields).1 = endToEndFields.getD 1 "" ∧
    (extractFields endToEndFields).2.1 = endToEndFields.getD 2 "" ∧
    (extractFields endToEndFields).2.2 = parsePriceVal (endToEndFields.getD 3 "") ∧
    guardQueryKey endToEndFields = endToEndFields.getD 3 "" :=
  C2_layout_extraction endToEndFields (by decide)

/-- A loto table holding one previously accepted ticket for QR "QR-4". -/
def tableQr4 : List LotoRow :=
  [{ idUser := 9, idLoto := 77777777, qr := "QR-4", checks := false }]

/-- A stored user state in the payment stage with quantity 5. -/
def stateQty5 : Option UserState :=
  some { state := StatePay, count := 5, isPaid := false }

/-- Non-shifted 5-field receipts for quantity 5 with amounts 94 500,
94 999 and 50 000 (QR "QR-4", issuer cfg.Bin). -/
def fields94500 : List String := ["x", "y", "94 500", "QR-4", "870304301209"]

/-- The 94 999 variant of the quantity-5 receipt. -/
def fields94999 : List String := ["x", "y", "94 999", "QR-4", "870304301209"]

/-- The 50 000 variant of the quantity-5 receipt. -/
def fields50000 : List String := ["x", "y", "50 000", "QR-4", "870304301209"]

/-- C4 counterexample: with unit cost 18900 and quantity 5 an amount of
94 999 is NOT snapped to 94 500 — the snap data is the discrete willBePrice
list of near-18900 values, not a band around the order total — so the
handler rejects it with the wrong-price keyboard and predicted quantity
94999 / 18900 = 5 instead of accepting it. -/
theorem C4_counterexample_no_band :
    (PaidHandlerV1 concreteCfg tableQr4 stateQty5 9 fields94999
      (fun i => 10000005 + (i : Int))).outcome = Outcome.wrongPriceKb 5 ∧
    (PaidHandlerV1 concreteCfg tableQr4 stateQty5 9 fields94999
      (fun i => 10000005 + (i : Int))).outcome ≠ Outcome.accepted ∧
    snapWillBePrice 94999 = 94999 := by
  exact ⟨by decide, by decide, by decide⟩

/-- C4 amended: with unit cost 18900 and quantity 5, an amount of 94 500 is
accepted; 50 000 is rejected with the wrong-price message, the re-offered
quantity keyboard and predicted quantity 50000 / 18900 = 2; 94 999 is
likewise rejected (predicted quantity 5), because the configured snap data
is the discrete list willBePrice (whose members, e.g. 18 990, normalize to
18 900), not the band [94900, 95000) around the total. -/
theorem C4_price_reconciliation :
    (PaidHandlerV1 concreteCfg tableQr4 stateQty5 9 fields94500
      (fun i => 10000005 + (i : Int))).outcome = Outcome.accepted ∧
    (PaidHandlerV1 concreteCfg tableQr4 stateQty5 9 fields94500
      (fun i => 10000005 + (i : Int))).sumDelta = 94500 ∧
    (PaidHandlerV1 concreteCfg tableQr4 stateQty5 9 fields50000
      (fun i => 10000005 + (i : Int))).outcome = Outcome.wrongPriceKb 2 ∧
    (PaidHandlerV1 concreteCfg tableQr4 stateQty5 9 fields94999
      (fun i => 10000005 + (i : Int))).outcome = Outcome.wrongPriceKb 5 ∧
    snapWillBePrice 18990 = 18900 ∧ snapWillBePrice 94999 = 94999 := by
  exact ⟨by decide, by decide, by decide, by decide, by decide, by decide⟩

/-- A loto table that has already accepted the issuer string as a QR, so
the first variant's inverted guard lets the run proceed. -/
def tableBinSeen : List LotoRow :=
  [{ idUser := 9, idLoto := 77777777, qr := "870304301209", checks := false }]

/-- C5: the spec's own 4-element end-to-end input panics instead of being
processed — after the len >= 4 check both handler variants unconditionally
read result[4], out of range for every exactly-4-element list — while a
3-element list does take the ParseFailure retry path with no mutation. -/
theorem C5_result4_out_of_range :
    (PaidHandlerV1 concreteCfg tableBinSeen stateQty5 9 endToEndFields
      (fun i => 10000005 + (i : Int))).outcome = Outcome.panicIndex ∧
    (PaidHandlerV2 concreteCfg [] stateQty5 9 endToEndFields
      (fun i => 10000005 + (i : Int))).outcome = Outcome.panicIndex ∧
    PaidHandlerV1 concreteCfg [] stateQty1 9 ["a", "b", "c"]
      (fun i => 10000005 + (i : Int)) = noChange [] Outcome.parseFail := by
  exact ⟨by decide, by decide, by decide⟩

/-- C9: a missing state key is fatal in PaidHandler — GetUserState yields
nil with no error, and the handler dereferences it at state.Count — and the
synthesized default of getOrCreateUserState carries State "" rather than
the StateStart constant "state_start". -/
theorem C9_nil_state_panic :
    (PaidHandlerV1 concreteCfg replayTable none 9 fieldsQr1
      (fun i => 10000005 + (i : Int))).outcome = Outcome.panicNilState ∧
    (PaidHandlerV2 concreteCfg [] none 9 fieldsQr1
      (fun i => 10000005 + (i : Int))).outcome = Outcome.panicNilState ∧
    getOrCreateUserState none = { state := "", count := 0, isPaid := false } ∧
    (getOrCreateUserState none).state ≠ StateStart := by
  exact ⟨by decide, by decide, by decide, by decide⟩

/-- The pair-state fold of the insertion loop splits into the table fold
and the accumulated batch. -/
lemma foldl_insert_pair (e : Nat → LotoRow) (l : List Nat)
    (t : List LotoRow) (b : List LotoRow) :
    l.foldl (fun acc i => (InsertLoto acc.1 (e i), acc.2 ++ [e i])) (t, b) =
      ((l.map e).foldl InsertLoto t, b ++ l.map e) := by
  induction l generalizing t b with
  | nil => simp
  | cons x xs ih => simp [ih]

/-- Inserting an entry whose (id_user, id_loto) key is absent from the
table appends it. -/
lemma insertLoto_fresh (t : List LotoRow) (e : LotoRow)
    (h : ∀ r ∈ t, ¬(r.idUser = e.idUser ∧ r.idLoto = e.idLoto)) :
    InsertLoto t e = t ++ [e] := by
  unfold InsertLoto
  congr 1
  apply List.filter_eq_self.mpr
  intro r hr
  have hh := h r hr
  simp only [not_and] at hh
  by_cases he : r.idUser = e.idUser
  · simp [he, hh he]
  · simp [he]

/-- Folding InsertLoto over entries with pairwise distinct keys, all absent
from the starting table, appends them all. -/
lemma foldl_insertLoto_fresh (es : List LotoRow) (t : List LotoRow)
    (hfresh : ∀ e ∈ es, ∀ r ∈ t, ¬(r.idUser = e.idUser ∧ r.idLoto = e.idLoto))
    (hnodup : (es.map (fun e => (e.idUser, e.idLoto))).Nodup) :
    es.foldl InsertLoto t = t ++ es := by
  induction es generalizing t with
  | nil => simp
  | cons e es ih =>
    simp only [List.foldl_cons]
    rw [insertLoto_fresh t e (hfresh e (List.mem_cons_self e es))]
    rw [ih (t ++ [e]) ?fresh ?nodup]
    · simp
    case fresh =>
      intro e' he' r hr
      rcases List.mem_append.mp hr with hrt | hre
      · exact hfresh e' (List.mem_cons_of_mem e he') r hrt
      · simp only [List.mem_singleton] at hre
        subst hre
        simp only [List.map_cons, List.nodup_cons, List.mem_map] at hnodup
        intro ⟨h1, h2⟩
        exact hnodup.1 ⟨e', he', by rw [h1, h2]⟩
    case nodup =>
      simp only [List.map_cons, List.nodup_cons] at hnodup
      exact hnodup.2

/-- The insertion loop in closed form: the batch is the mapped index range
and the table is folded over exactly that batch. -/
lemma runInserts_eq (loto : List LotoRow) (userId : Int) (qrPdf : String)
    (totalLoto : Nat) (draws : Nat → Int) :
    runInserts loto userId qrPdf totalLoto draws =
      (((List.range totalLoto).map
          (fun i => ({ idUser := userId, idLoto := draws i, qr := qrPdf,
                       checks := false } : LotoRow))).foldl InsertLoto loto,
       (List.range totalLoto).map
          (fun i => ({ idUser := userId, idLoto := draws i, qr := qrPdf,
                       checks := false } : LotoRow))) := by
  unfold runInserts
  rw [foldl_insert_pair]
  simp

/-- A fixed draw stream with a repeated value: draw 0 and draw 1 are both
10000005, draw 2 is 10000007. -/
def drawsDup : Nat → Int := fun i => if i = 1 then 10000005 else 10000005 + (i : Int)

/-- C7 counterexample: an accepted quantity-1 receipt whose three random
draws repeat a value yields a batch whose identifiers are not pairwise
distinct, and INSERT OR REPLACE silently collapses the repeat: the loto
table ends with 3 rows instead of the 4 that one prior row plus a 3-ticket
batch should give. -/
theorem C7_counterexample_collision :
    (PaidHandlerV1 concreteCfg replayTable stateQty1 9 fieldsQr1 drawsDup).outcome =
      Outcome.accepted ∧
    (PaidHandlerV1 concreteCfg replayTable stateQty1 9 fieldsQr1 drawsDup).inserts.length = 3 ∧
    ¬ ((PaidHandlerV1 concreteCfg replayTable stateQty1 9 fieldsQr1
        drawsDup).inserts.map LotoRow.idLoto).Nodup ∧
    (PaidHandlerV1 concreteCfg replayTable stateQty1 9 fieldsQr1 drawsDup).loto.length = 3 := by
  exact ⟨by decide, by decide, by decide, by decide⟩

/-- C7 amended: the insertion loop performs exactly 3q InsertLoto calls,
each linked to the user and the receipt QR, unredeemed; when the drawn
identifiers are pairwise distinct, in the 8-digit range, and distinct from
the user's existing rows, the batch has exactly 3q records, its identifiers
are pairwise distinct, and the table grows by exactly the batch — otherwise
INSERT OR REPLACE against UNIQUE(id_user, id_loto) replaces rows instead. -/
theorem C7_ticket_batch (loto : List LotoRow) (userId : Int) (qrPdf : String)
    (q : Nat) (draws : Nat → Int)
    (hinj : ∀ i ∈ List.range (3 * q), ∀ j ∈ List.range (3 * q),
      draws i = draws j → i = j)
    (hfresh : ∀ i ∈ List.range (3 * q), ∀ r ∈ loto,
      ¬(r.idUser = userId ∧ r.idLoto = draws i))
    (hrange : ∀ i ∈ List.range (3 * q), 10000000 ≤ draws i ∧ draws i ≤ 99999999) :
    (runInserts loto userId qrPdf (3 * q) draws).2.length = 3 * q ∧
    (runInserts loto userId qrPdf (3 * q) draws).1 =
      loto ++ (runInserts loto userId qrPdf (3 * q) draws).2 ∧
    ((runInserts loto userId qrPdf (3 * q) draws).2.map LotoRow.idLoto).Nodup ∧
    (∀ r ∈ (runInserts loto userId qrPdf (3 * q) draws).2,
      r.idUser = userId ∧ r.qr = qrPdf ∧ r.checks = false ∧
        10000000 ≤ r.idLoto ∧ r.idLoto ≤ 99999999) := by
  rw [runInserts_eq]
  have hids : (((List.range (3 * q)).map
      (fun i => ({ idUser := userId, idLoto := draws i, qr := qrPdf,
                   checks := false } : LotoRow))).map LotoRow.idLoto).Nodup := by
    rw [List.map_map]
    exact (List.nodup_range (3 * q)).map_on
      (fun i hi j hj hij => hinj i hi j hj hij)
  refine ⟨by simp, ?_, hids, ?_⟩
  · apply foldl_insertLoto_fresh
    · intro e he r hr
      simp only [List.mem_map, List.mem_range] at he
      rcases he with ⟨i, hi, rfl⟩
      exact hfresh i (List.mem_range.mpr hi) r hr
    · have := hids
      rw [List.map_map] at this ⊢
      apply List.Nodup.of_map (f := Prod.snd)
      rw [List.map_map]
      exact this
  · intro r hr
    simp only [List.mem_map, List.mem_range] at hr
    rcases hr with ⟨i, hi, rfl⟩
    have hb := hrange i (List.mem_range.mpr hi)
    exact ⟨rfl, rfl, rfl, hb.1, hb.2⟩

/-- A strictly increasing draw stream starting at 10000001. -/
def drawsSeq : Nat → Int := fun i => 10000001 + (i : Int)

/-- C7 witness: three strictly increasing 8-digit draws for quantity 1 on
an empty table give a 3-ticket batch with pairwise distinct identifiers. -/
theorem C7_ticket_batch_witness :
    (runInserts [] 9 "QR" (3 * 1) drawsSeq).2.length = 3 * 1 ∧
    ((runInserts [] 9 "QR" (3 * 1) drawsSeq).2.map LotoRow.idLoto).Nodup := by
  have h := C7_ticket_batch [] 9 "QR" 1 drawsSeq
    (by intro i _ j _ hij; unfold drawsSeq at hij; omega)
    (by intro i _ r hr; cases hr)
    (by intro i hi; simp only [List.mem_range] at hi; unfold drawsSeq; omega)
  exact ⟨h.1, h.2.2.1⟩

/-- Every PaidHandlerV1 run either mutates nothing (returning the table it
was given, writing no state, inserting nothing, adding nothing to the
running total) or ends in the accepted outcome. -/
lemma paidV1_shape (cfg : Config) (loto : List LotoRow)
    (stateOpt : Option UserState) (userId : Int) (result : List String)
    (draws : Nat → Int) :
    PaidHandlerV1 cfg loto stateOpt userId result draws =
      noChange loto (PaidHandlerV1 cfg loto stateOpt userId result draws).outcome ∨
    (PaidHandlerV1 cfg loto stateOpt userId result draws).outcome = Outcome.accepted := by
  unfold PaidHandlerV1
  by_cases h1 : result.length < 4
  · simp [h1, noChange]
  by_cases h2 : (!IsUniqueQr loto (guardQueryKey result)) = true
  · simp [h1, h2, noChange]
  by_cases h3 : result.length < 5
  · simp [h1, h2, h3, noChange]
  cases hP : ParsePrice (extractFields result).1 with
  | none => simp [h1, h2, h3, hP, noChange]
  | some rawPrice =>
    cases stateOpt with
    | none => simp [h1, h2, h3, hP, noChange]
    | some st =>
      by_cases h4 : cfg.cost = 0
      · simp [h1, h2, h3, hP, h4, noChange]
      by_cases h5 : st.count * cfg.cost = snapWillBePrice rawPrice
      · cases hV : Validator cfg
          { total := st.count, actualPrice := snapWillBePrice rawPrice,
            qr := (extractFields result).2.1, bin := (extractFields result).2.2 } with
        | none => simp [h1, h2, h3, hP, h4, h5, hV, noChange]
        | some e => cases e <;> simp [h1, h2, h3, hP, h4, h5, hV, noChange]
      · simp [h1, h2, h3, hP, h4, h5, noChange]

/-- C8: every PaidHandlerV1 run whose outcome is one of the validation
failures (too few fields, already-used message, unparseable amount, wrong
price at either report point, wrong bin) leaves every store untouched: no
state write, the loto table as it was, no ticket inserts, no increase of
the running total. -/
theorem C8_failure_is_atomic (cfg : Config) (loto : List LotoRow)
    (stateOpt : Option UserState) (userId : Int) (result : List String)
    (draws : Nat → Int)
    (h : isFailureOutcome
      (PaidHandlerV1 cfg loto stateOpt userId result draws).outcome = true) :
    (PaidHandlerV1 cfg loto stateOpt userId result draws).savedState = none ∧
    (PaidHandlerV1 cfg loto stateOpt userId result draws).loto = loto ∧
    (PaidHandlerV1 cfg loto stateOpt userId result draws).inserts = [] ∧
    (PaidHandlerV1 cfg loto stateOpt userId result draws).sumDelta = 0 := by
  rcases paidV1_shape cfg loto stateOpt userId result draws with heq | hacc
  · rw [heq]
    exact ⟨rfl, rfl, rfl, rfl⟩
  · rw [hacc] at h
    simp [isFailureOutcome] at h

/-- C8 witness: a one-field receipt takes the ParseFailure path and leaves
everything untouched. -/
theorem C8_failure_is_atomic_witness :
    (PaidHandlerV1 concreteCfg [] none 9 ["a"]
      (fun i => 10000005 + (i : Int))).savedState = none ∧
    (PaidHandlerV1 concreteCfg [] none 9 ["a"]
      (fun i => 10000005 + (i : Int))).loto = [] ∧
    (PaidHandlerV1 concreteCfg [] none 9 ["a"]
      (fun i => 10000005 + (i : Int))).inserts = [] ∧
    (PaidHandlerV1 concreteCfg [] none 9 ["a"]
      (fun i => 10000005 + (i : Int))).sumDelta = 0 :=
  C8_failure_is_atomic concreteCfg [] none 9 ["a"]
    (fun i => 10000005 + (i : Int)) (by decide)

end Parfum
